import Mathlib

/-!
Verification of the trading-agent decision-and-execution pipeline
(`src/main.py`): risk scoring, buy/sell trigger logic, the swap-execute-
confirm trade state machine, the TTL cache, and the reputation-credential
handling. Python floats are embedded as `ℚ`, Python ints as `ℤ`; external
services (swap router, submit endpoint, chain confirmation, reputation
service) are oracles passed in explicitly, so each code path of the source
becomes a case of a total Lean function.
-/

namespace TraderAgent

/-- Embeds the `Settings` pydantic class (src/main.py lines 22-48): the
threshold configuration fields the decision pipeline reads. -/
structure Settings where
  VOLUME_THRESHOLD : ℚ
  LIQUIDITY_THRESHOLD : ℚ
  TX_COUNT_THRESHOLD : ℤ
  TREND_SCORE_MIN : ℚ
  SCAM_RISK_MAX : ℚ
  PROFIT_MULTIPLIER_MIN : ℚ
  PROFIT_MULTIPLIER_MAX : ℚ
  SELL_PERCENTAGE : ℚ
  BUY_AMOUNT_SOL : ℚ
  CACHE_EXPIRY : ℚ
  deriving Repr, DecidableEq

/-- The default values of `Settings` in the source. -/
def defaultSettings : Settings :=
  { VOLUME_THRESHOLD := 1000
    LIQUIDITY_THRESHOLD := 500
    TX_COUNT_THRESHOLD := 100
    TREND_SCORE_MIN := 1/2
    SCAM_RISK_MAX := 1/2
    PROFIT_MULTIPLIER_MIN := 2
    PROFIT_MULTIPLIER_MAX := 3
    SELL_PERCENTAGE := 1/2
    BUY_AMOUNT_SOL := 1
    CACHE_EXPIRY := 300 }

/-- Embeds the validated `TokenAnalytics` pydantic model (lines 91-96). -/
structure TokenAnalytics where
  volume_24h : ℚ
  liquidity : ℚ
  tx_count_24h : ℤ
  sniper_activity : ℚ
  insider_trades : ℤ
  deriving Repr, DecidableEq

/-- Embeds the `TokenState` class fields (lines 215-228). -/
structure TokenState where
  token_address : String
  name : String
  decimals : ℕ
  volume : ℚ
  liquidity : ℚ
  tx_count : ℤ
  trend_score : ℚ
  scam_risk : ℚ
  buy_price : ℚ
  holdings : ℚ
  sniper_activity : ℚ
  insider_trades : ℤ
  deriving Repr, DecidableEq

/-- `TokenState.__init__` (lines 216-228): all numeric fields start at 0. -/
def TokenState.init (token_address name : String) (decimals : ℕ) : TokenState :=
  { token_address := token_address
    name := name
    decimals := decimals
    volume := 0
    liquidity := 0
    tx_count := 0
    trend_score := 0
    scam_risk := 0
    buy_price := 0
    holdings := 0
    sniper_activity := 0
    insider_trades := 0 }

/-- `TokenState.update_analytics` (lines 230-235): copies the validated
analytics fields into the state. -/
def TokenState.update_analytics (t : TokenState) (a : TokenAnalytics) : TokenState :=
  { t with
    volume := a.volume_24h
    liquidity := a.liquidity
    tx_count := a.tx_count_24h
    sniper_activity := a.sniper_activity
    insider_trades := a.insider_trades }

/-- `TokenState.update_trend_score` (lines 237-238). -/
def TokenState.update_trend_score (t : TokenState) (trend_score : ℚ) : TokenState :=
  { t with trend_score := trend_score }

/-- `TokenState.update_scam_risk` (lines 240-256): iterates the
`risk_factors` dict in insertion order, adding each weight when its
trigger fires — `value > threshold` for the first two factors,
`value < threshold` for the other two. -/
def TokenState.update_scam_risk (s : Settings) (t : TokenState) : TokenState :=
  let risk_factors : List (String × ℚ × ℚ × ℚ) :=
    [("sniper_activity", t.sniper_activity, 50, 3/10),
     ("insider_trades", (t.insider_trades : ℚ), 10, 2/10),
     ("liquidity", t.liquidity, s.LIQUIDITY_THRESHOLD / 2, 4/10),
     ("tx_count", (t.tx_count : ℚ), (s.TX_COUNT_THRESHOLD : ℚ) / 2, 1/10)]
  let risk := risk_factors.foldl
    (fun acc fv =>
      let (factor, value, threshold, weight) := fv
      if factor = "sniper_activity" ∨ factor = "insider_trades" then
        if value > threshold then acc + weight else acc
      else
        if value < threshold then acc + weight else acc)
    0
  { t with scam_risk := risk }

/-- `TokenState.update_holdings` (lines 258-260): overwrites `buy_price`
and `holdings`. -/
def TokenState.update_holdings (t : TokenState) (buy_price holdings : ℚ) : TokenState :=
  { t with buy_price := buy_price, holdings := holdings }

/-! ## TTL cache (lines 69-80) -/

/-- A cache entry as stored by `set_cached_data`: the payload and the
`time.time()` timestamp of the write. -/
structure CacheEntry (α : Type) where
  data : α
  timestamp : ℚ
  deriving Repr, DecidableEq

/-- The in-memory cache dict, as an association list whose first match is
the current binding (mirrors dict assignment followed by lookup). -/
abbrev Cache (α : Type) := List (String × CacheEntry α)

/-- `get_cached_data` (lines 72-76): returns the stored payload when the
key is present and `now - timestamp < CACHE_EXPIRY`, otherwise `none`.
The cache itself is not modified by a read. -/
def get_cached_data {α : Type} (s : Settings) (cache : Cache α) (now : ℚ)
    (key : String) : Option α :=
  match cache.lookup key with
  | some entry => if now - entry.timestamp < s.CACHE_EXPIRY then some entry.data else none
  | none => none

/-- `set_cached_data` (lines 78-80): stores the payload under the key with
the current time, shadowing any previous binding. -/
def set_cached_data {α : Type} (cache : Cache α) (now : ℚ) (key : String)
    (data : α) : Cache α :=
  (key, { data := data, timestamp := now }) :: cache

/-! ## Swap routing, submission and confirmation oracles -/

/-- The `"data"` dict of a swap-route response, as the trade code reads it:
whether the `"raw_tx"` key is present, and `.get("out_amount", 0)` (the
default 0 is folded into the field). -/
structure RouteData where
  raw_tx : Bool
  out_amount : ℤ
  deriving Repr, DecidableEq

/-- A `get_swap_route` result: `none` for a falsy response or one missing
the `"data"` key (the code collapses both with `not route or "data" not in
route`). -/
abbrev Route := Option RouteData

/-- The external outcomes one buy/sell attempt can observe: the swap route,
whether decoding/signing/serializing succeeded (the `except` path of the
source returns failure), the transaction hash from `submit_transaction`
(`none` when the response lacks `data.hash` or is falsy), and the
`confirm_transaction` verdict for that hash. -/
structure TradeEnv where
  route : Route
  signOk : Bool
  submitHash : Option String
  confirmed : Bool
  deriving Repr, DecidableEq

/-! ## Position store (lines 83-88, 349-360) -/

/-- One row of the `tokens` table. -/
structure DBRow where
  token_address : String
  name : String
  volume : ℚ
  liquidity : ℚ
  tx_count : ℤ
  trend_score : ℚ
  scam_risk : ℚ
  buy_price : ℚ
  holdings : ℚ
  decimals : ℕ
  deriving Repr, DecidableEq

/-- The persistent store, keyed by token address (the table's primary key). -/
abbrev DB := String → Option DBRow

/-- The row `save_token_to_db` writes for a given `TokenState`
(lines 352-357). -/
def rowOfState (t : TokenState) : DBRow :=
  { token_address := t.token_address
    name := t.name
    volume := t.volume
    liquidity := t.liquidity
    tx_count := t.tx_count
    trend_score := t.trend_score
    scam_risk := t.scam_risk
    buy_price := t.buy_price
    holdings := t.holdings
    decimals := t.decimals }

/-- `save_token_to_db` (lines 349-360): `INSERT OR REPLACE` keyed by
`token_address` — the whole row is replaced regardless of what was there. -/
def save_token_to_db (db : DB) (t : TokenState) : DB :=
  fun addr => if addr = t.token_address then some (rowOfState t) else db addr

/-- The sell-phase `UPDATE tokens SET holdings = h WHERE token_address = a`
(lines 445 and 449-450): only the `holdings` column of the matching row
changes. -/
def dbSetHoldings (db : DB) (addr : String) (h : ℚ) : DB :=
  fun a => if a = addr then (db a).map (fun r => { r with holdings := h }) else db a

/-! ## Trade executor (class `Trader`, lines 263-327) -/

/-- `Trader.execute_buy` (lines 267-300). Returns the success flag, the
(possibly updated) token state, and the resulting position store. The
position is written only on the path: route has `data.raw_tx` → signing
succeeds → submit returns a hash → `confirm_transaction` true →
`out_amount ≠ 0`; every other path returns `False` with the store
untouched. -/
def Trader.execute_buy (env : TradeEnv) (db : DB) (token_state : TokenState)
    (amount_in_sol : ℚ) : Bool × TokenState × DB :=
  match env.route with
  | none => (false, token_state, db)
  | some data =>
    if data.raw_tx = false then (false, token_state, db)
    else if env.signOk = false then (false, token_state, db)
    else match env.submitHash with
      | none => (false, token_state, db)
      | some _ =>
        if env.confirmed then
          let out_amount := data.out_amount
          if out_amount = 0 then (false, token_state, db)
          else
            let buy_price := amount_in_sol / ((out_amount : ℚ) / (10 : ℚ) ^ token_state.decimals)
            let holdings := (out_amount : ℚ) / (10 : ℚ) ^ token_state.decimals
            let ts := token_state.update_holdings buy_price holdings
            (true, ts, save_token_to_db db ts)
        else (false, token_state, db)

/-- `Trader.execute_sell` (lines 302-327): same state machine in the sell
direction. It mutates no persisted state itself; it only reports success
(route with `data.raw_tx`, signing, a submit hash, and confirmation). -/
def Trader.execute_sell (env : TradeEnv) : Bool :=
  match env.route with
  | none => false
  | some data =>
    if data.raw_tx = false then false
    else if env.signOk = false then false
    else match env.submitHash with
      | none => false
      | some _ => env.confirmed

/-! ## Decision engine: buy phase (lines 412-423) -/

/-- `trends.get(token_address, 0)` — dict lookup with default 0
(line 417; the trends dict is built at lines 144-145). -/
def trendsGet (trends : List (String × ℚ)) (token_address : String) : ℚ :=
  match trends.lookup token_address with
  | some v => v
  | none => 0

/-- `TokenAnalyzer.analyze_token` (lines 334-346): `none` when analytics
are absent/invalid (empty dict) or the RugCheck validation fails; otherwise
the `TokenState` with analytics applied and scam risk computed. -/
def analyze_token (s : Settings) (analytics : Option TokenAnalytics)
    (decimals : ℕ) (rugcheckOk : Bool) (token_address name : String) :
    Option TokenState :=
  match analytics with
  | none => none
  | some a =>
    let token_state :=
      ((TokenState.init token_address name decimals).update_analytics a).update_scam_risk s
    if rugcheckOk then some token_state else none

/-- The five-way buy gate of the main loop (lines 418-422). -/
def buyGatesPass (s : Settings) (t : TokenState) : Bool :=
  decide (t.volume ≥ s.VOLUME_THRESHOLD) &&
  decide (t.liquidity ≥ s.LIQUIDITY_THRESHOLD) &&
  decide (t.tx_count ≥ s.TX_COUNT_THRESHOLD) &&
  decide (t.trend_score ≥ s.TREND_SCORE_MIN) &&
  decide (t.scam_risk < s.SCAM_RISK_MAX)

/-- The per-candidate body of the buy phase (lines 412-423): given the
analyzer's result, attach the trend score and invoke `execute_buy` exactly
when all five gates hold. The `Bool` component records whether the buy
executor was invoked. -/
def buyPhaseStep (s : Settings) (trends : List (String × ℚ))
    (analyzed : Option TokenState) : Option TokenState × Bool :=
  match analyzed with
  | none => (none, false)
  | some token_state =>
    let token_state := { token_state with trend_score := trendsGet trends token_state.token_address }
    (some token_state, buyGatesPass s token_state)

/-! ## Decision engine: sell phase (lines 425-451) -/

/-- Line 438: `sol_received = route["data"].get("out_amount", 0) / 10**9`. -/
def sol_received (out_amount : ℤ) : ℚ :=
  (out_amount : ℚ) / (10 : ℚ) ^ (9 : ℕ)

/-- Line 441: `current_price = sol_received / 0.001`. -/
def current_price (out_amount : ℤ) : ℚ :=
  sol_received out_amount / (1/1000)

/-- Line 442: `profit_multiplier = current_price / token_state.buy_price`. -/
def profit_multiplier (out_amount : ℤ) (buy_price : ℚ) : ℚ :=
  current_price out_amount / buy_price

/-- The per-position body of the sell loop (lines 429-450) for one row
`(token_address, name, buy_price, holdings, decimals)` drawn from
`SELECT ... WHERE holdings > 0`. `probe_route` is the small test swap's
route; `sell_env` is the environment `execute_sell` sees if a sell is
attempted. Returns the store after the body and `none` when no sell was
attempted, otherwise `some` of `execute_sell`'s result. Note the source
ignores that result: the `UPDATE` runs whenever a sell was attempted. -/
def sellPhaseStep (s : Settings) (probe_route : Route) (sell_env : TradeEnv)
    (db : DB) (token_address : String) (buy_price holdings : ℚ)
    (decimals : ℕ) : DB × Option Bool :=
  match probe_route with
  | none => (db, none)
  | some data =>
    if sol_received data.out_amount = 0 then (db, none)
    else
      if profit_multiplier data.out_amount buy_price ≥ s.PROFIT_MULTIPLIER_MAX then
        let sold := Trader.execute_sell sell_env
        (dbSetHoldings db token_address 0, some sold)
      else if profit_multiplier data.out_amount buy_price ≥ s.PROFIT_MULTIPLIER_MIN then
        let amount_to_sell := holdings * s.SELL_PERCENTAGE
        let sold := Trader.execute_sell sell_env
        (dbSetHoldings db token_address (holdings - amount_to_sell), some sold)
      else (db, none)

/-! ## RugCheck credential handling (lines 155-168, 362-385, 396-401) -/

/-- Outcome of one HTTP request: the payload, or a transport/status error
(`raise_for_status`, connection failure). -/
inductive HttpResult (α : Type)
  | ok (a : α)
  | err
  deriving Repr, DecidableEq

/-- `validate_token_rugcheck` (lines 155-168) as a transition on the global
`API_KEY_RUGCHECK` (the empty string is Python-falsy, i.e. "no credential").
Arguments: the current key; what `get_rugcheck_api_token` would return if
called; the reputation GET outcome as a function of the bearer key used.
Returns the new global key, the call's outcome (`Except.error` models the
propagated request exception), and whether a credential fetch occurred. -/
def validate_token_rugcheck (apiKey : String) (fetchResult : String)
    (request : String → HttpResult String) :
    String × Except Unit Bool × Bool :=
  if apiKey = "" then
    let newKey := fetchResult
    if newKey = "" then (newKey, Except.ok false, true)
    else
      match request newKey with
      | HttpResult.ok status => (newKey, Except.ok (status.toUpper = "GOOD"), true)
      | HttpResult.err => (newKey, Except.error (), true)
  else
    match request apiKey with
    | HttpResult.ok status => (apiKey, Except.ok (status.toUpper = "GOOD"), false)
    | HttpResult.err => (apiKey, Except.error (), false)

/-! ## Concrete example fixtures used by witnesses -/

/-- A concrete persisted position row: cost basis 1 SOL, 10 tokens held. -/
def exRow : DBRow :=
  { token_address := "tok"
    name := "Tok"
    volume := 0
    liquidity := 0
    tx_count := 0
    trend_score := 0
    scam_risk := 0
    buy_price := 1
    holdings := 10
    decimals := 6 }

/-- A concrete store holding exactly `exRow`. -/
def exDB : DB := fun a => if a = "tok" then some exRow else none

/-! ## Theorems -/

/-- C4: for all analytics inputs, the scam-risk score equals the sum of
exactly the triggered weighted penalties (0.3 for sniper activity > 50,
0.2 for insider trades > 10, 0.4 for liquidity below half the liquidity
threshold, 0.1 for tx count below half the tx-count threshold), with no
normalization or clamping, and the result lies in [0,1]. -/
theorem scam_risk_additive (s : Settings) (t : TokenState) :
    (t.update_scam_risk s).scam_risk =
      (if t.sniper_activity > 50 then (3/10 : ℚ) else 0) +
      (if (t.insider_trades : ℚ) > 10 then (2/10 : ℚ) else 0) +
      (if t.liquidity < s.LIQUIDITY_THRESHOLD / 2 then (4/10 : ℚ) else 0) +
      (if (t.tx_count : ℚ) < (s.TX_COUNT_THRESHOLD : ℚ) / 2 then (1/10 : ℚ) else 0) ∧
    0 ≤ (t.update_scam_risk s).scam_risk ∧ (t.update_scam_risk s).scam_risk ≤ 1 := by
  refine ⟨?_, ?_, ?_⟩ <;>
  · simp [TokenState.update_scam_risk]
    split_ifs <;> norm_num

/-- C3: for a candidate that survives analytics validation and the
reputation check (the analyzer returned `some`), the buy executor is
invoked iff all five gates hold, with the scam-risk gate strict: a score
equal to `SCAM_RISK_MAX` excludes the token. -/
theorem buy_invoked_iff_gates (s : Settings) (trends : List (String × ℚ))
    (ts : TokenState) :
    (buyPhaseStep s trends (some ts)).2 = true ↔
      (ts.volume ≥ s.VOLUME_THRESHOLD ∧
       ts.liquidity ≥ s.LIQUIDITY_THRESHOLD ∧
       ts.tx_count ≥ s.TX_COUNT_THRESHOLD ∧
       trendsGet trends ts.token_address ≥ s.TREND_SCORE_MIN ∧
       ts.scam_risk < s.SCAM_RISK_MAX) := by
  simp [buyPhaseStep, buyGatesPass, and_assoc]

/-- Witness for C3 at the spec's scenario: volume 5000, liquidity 1000,
tx count 200, risk 0, trend 0.8 against the default thresholds — all five
gates hold, so the buy executor is invoked. -/
theorem buy_invoked_iff_gates_w :
    (buyPhaseStep defaultSettings [("tok", 4/5)]
      (some { TokenState.init "tok" "Tok" 6 with
                volume := 5000, liquidity := 1000, tx_count := 200 })).2
      = true :=
  (buy_invoked_iff_gates defaultSettings [("tok", 4/5)]
    { TokenState.init "tok" "Tok" 6 with
        volume := 5000, liquidity := 1000, tx_count := 200 }).mpr
    (by norm_num [TokenState.init, trendsGet, List.lookup, defaultSettings])

/-- C9: a candidate whose address is absent from the trend-score mapping
gets trend score 0, so with any positive configured trend minimum the
trend gate fails and the buy executor is not invoked. -/
theorem missing_trend_blocks_buy (s : Settings) (trends : List (String × ℚ))
    (ts : TokenState)
    (habs : trends.lookup ts.token_address = none)
    (hmin : 0 < s.TREND_SCORE_MIN) :
    (buyPhaseStep s trends (some ts)).2 = false := by
  simp [buyPhaseStep, buyGatesPass, trendsGet, habs, not_le.mpr hmin]

/-- Witness for C9 at a concrete candidate and the default thresholds. -/
theorem missing_trend_blocks_buy_w :
    (buyPhaseStep defaultSettings [] (some (TokenState.init "tok" "Tok" 6))).2
      = false :=
  missing_trend_blocks_buy defaultSettings [] (TokenState.init "tok" "Tok" 6)
    rfl (by norm_num [defaultSettings])

/-- C6: after `set(K, V)` at time `t0`, a `get(K)` at time `t1` returns `V`
while `t1 - t0 < TTL`, and returns a miss once `t1 - t0 ≥ TTL` even though
the stored entry is still in the cache untouched; a key absent from the
cache is also a miss. -/
theorem cache_ttl_roundtrip {α : Type} (s : Settings) (c : Cache α)
    (t0 t1 : ℚ) (k : String) (v : α) :
    (t1 - t0 < s.CACHE_EXPIRY →
      get_cached_data s (set_cached_data c t0 k v) t1 k = some v) ∧
    (s.CACHE_EXPIRY ≤ t1 - t0 →
      get_cached_data s (set_cached_data c t0 k v) t1 k = none ∧
      (set_cached_data c t0 k v).lookup k = some { data := v, timestamp := t0 }) ∧
    (c.lookup k = none → get_cached_data s c t1 k = none) := by
  refine ⟨fun hlt => ?_, fun hge => ⟨?_, ?_⟩, fun habs => ?_⟩
  · simp [get_cached_data, set_cached_data, List.lookup, hlt]
  · simp [get_cached_data, set_cached_data, List.lookup, not_lt.mpr hge]
  · simp [set_cached_data, List.lookup]
  · simp [get_cached_data, habs]

/-- Witness for C6: a value set at time 0 with the default 300-second TTL
is returned at time 100 and missed at time 400. -/
theorem cache_ttl_roundtrip_w :
    get_cached_data defaultSettings
      (set_cached_data ([] : Cache ℤ) 0 "trends" 5) 100 "trends" = some 5 ∧
    get_cached_data defaultSettings
      (set_cached_data ([] : Cache ℤ) 0 "trends" 5) 400 "trends" = none :=
  ⟨(cache_ttl_roundtrip defaultSettings [] 0 100 "trends" 5).1
      (by norm_num [defaultSettings]),
   ((cache_ttl_roundtrip defaultSettings [] 0 400 "trends" 5).2.1
      (by norm_num [defaultSettings])).1⟩

/-- C5: a buy whose transaction confirmed but whose route reported
`out_amount == 0` returns failure, leaves the token state untouched, and
writes nothing to the position store. -/
theorem buy_zero_output_no_update (env : TradeEnv) (db : DB)
    (ts : TokenState) (amount_in_sol : ℚ) (data : RouteData)
    (hroute : env.route = some data)
    (hconf : env.confirmed = true)
    (hout : data.out_amount = 0) :
    Trader.execute_buy env db ts amount_in_sol = (false, ts, db) := by
  simp only [Trader.execute_buy, hroute]
  rcases hraw : data.raw_tx with _ | _
  · simp
  · rcases hsub : env.submitHash with _ | h
    · rcases env.signOk <;> simp
    · rcases env.signOk <;> simp [hconf, hout]

/-- Witness for C5: a confirmed buy with zero reported output at a concrete
environment, store and token state. -/
theorem buy_zero_output_no_update_w :
    Trader.execute_buy
      { route := some { raw_tx := true, out_amount := 0 }
        signOk := true
        submitHash := some "h"
        confirmed := true }
      exDB (TokenState.init "tok" "Tok" 6) 1
      = (false, TokenState.init "tok" "Tok" 6, exDB) :=
  buy_zero_output_no_update
    { route := some { raw_tx := true, out_amount := 0 }
      signOk := true
      submitHash := some "h"
      confirmed := true }
    exDB (TokenState.init "tok" "Tok" 6) 1
    { raw_tx := true, out_amount := 0 } rfl rfl rfl

/-- C10: a successful buy of a token that already has a persisted position
replaces the stored row wholesale — cost basis and holdings become the new
trade's effective price and output quantity alone. The conclusion does not
mention the previous row `old` at all: nothing of it survives. -/
theorem buy_replaces_position (env : TradeEnv) (db : DB) (ts : TokenState)
    (amount_in_sol : ℚ) (old : DBRow) (data : RouteData) (h : String)
    (hprev : db ts.token_address = some old)
    (hroute : env.route = some data)
    (hraw : data.raw_tx = true)
    (hsign : env.signOk = true)
    (hsub : env.submitHash = some h)
    (hconf : env.confirmed = true)
    (hout : data.out_amount ≠ 0) :
    (Trader.execute_buy env db ts amount_in_sol).1 = true ∧
    (Trader.execute_buy env db ts amount_in_sol).2.2 ts.token_address =
      some (rowOfState (ts.update_holdings
        (amount_in_sol / ((data.out_amount : ℚ) / (10 : ℚ) ^ ts.decimals))
        ((data.out_amount : ℚ) / (10 : ℚ) ^ ts.decimals))) := by
  simp [Trader.execute_buy, hroute, hraw, hsign, hsub, hconf, hout,
    save_token_to_db, TokenState.update_holdings]

/-- Witness for C10: a confirmed 1-SOL buy returning 2000000 raw units of a
6-decimal token over a store already holding a position for that token. -/
theorem buy_replaces_position_w :
    (Trader.execute_buy
      { route := some { raw_tx := true, out_amount := 2000000 }
        signOk := true
        submitHash := some "h"
        confirmed := true }
      exDB (TokenState.init "tok" "Tok" 6) 1).1 = true ∧
    (Trader.execute_buy
      { route := some { raw_tx := true, out_amount := 2000000 }
        signOk := true
        submitHash := some "h"
        confirmed := true }
      exDB (TokenState.init "tok" "Tok" 6) 1).2.2 "tok" =
      some (rowOfState ((TokenState.init "tok" "Tok" 6).update_holdings
        (1 / (((2000000 : ℤ) : ℚ) / (10 : ℚ) ^ 6))
        (((2000000 : ℤ) : ℚ) / (10 : ℚ) ^ 6))) :=
  buy_replaces_position
    { route := some { raw_tx := true, out_amount := 2000000 }
      signOk := true
      submitHash := some "h"
      confirmed := true }
    exDB (TokenState.init "tok" "Tok" 6) 1 exRow
    { raw_tx := true, out_amount := 2000000 } "h"
    (by simp [exDB, TokenState.init]) rfl rfl rfl rfl rfl (by norm_num)

/-- C1: sell profit-banding for a persisted position with positive quantity
whose price probe succeeds (nonzero probe output): multiplier at or above
the upper band and a successful sell leave the persisted quantity exactly 0;
multiplier in [lower, upper) decreases the quantity by exactly
quantity × sell fraction; multiplier below the lower band attempts no sell
and leaves the store unchanged. -/
theorem sell_profit_banding (s : Settings) (probe : RouteData) (env : TradeEnv)
    (db : DB) (r : DBRow)
    (hdb : db r.token_address = some r)
    (hpos : 0 < r.holdings)
    (hbp : 0 < r.buy_price)
    (hbands : s.PROFIT_MULTIPLIER_MIN ≤ s.PROFIT_MULTIPLIER_MAX)
    (hprobe : probe.out_amount ≠ 0) :
    (profit_multiplier probe.out_amount r.buy_price ≥ s.PROFIT_MULTIPLIER_MAX →
      Trader.execute_sell env = true →
      ((sellPhaseStep s (some probe) env db r.token_address r.buy_price
          r.holdings r.decimals).1 r.token_address).map DBRow.holdings = some 0) ∧
    (s.PROFIT_MULTIPLIER_MIN ≤ profit_multiplier probe.out_amount r.buy_price ∧
     profit_multiplier probe.out_amount r.buy_price < s.PROFIT_MULTIPLIER_MAX →
      ((sellPhaseStep s (some probe) env db r.token_address r.buy_price
          r.holdings r.decimals).1 r.token_address).map DBRow.holdings =
        some (r.holdings - r.holdings * s.SELL_PERCENTAGE)) ∧
    (profit_multiplier probe.out_amount r.buy_price < s.PROFIT_MULTIPLIER_MIN →
      sellPhaseStep s (some probe) env db r.token_address r.buy_price
        r.holdings r.decimals = (db, none)) := by
  have hsol : ¬ sol_received probe.out_amount = 0 := by
    simp only [sol_received, div_eq_zero_iff]
    push_neg
    refine ⟨by exact_mod_cast hprobe, by norm_num⟩
  refine ⟨fun hmax _ => ?_, fun hmid => ?_, fun hlo => ?_⟩
  · simp [sellPhaseStep, hsol, hmax, dbSetHoldings, hdb]
  · simp [sellPhaseStep, hsol, not_le.mpr hmid.2, hmid.1, dbSetHoldings, hdb]
  · simp [sellPhaseStep, hsol, not_le.mpr (lt_of_lt_of_le hlo hbands),
      not_le.mpr hlo]

/-- Witness for C1 (upper band): probe output 3000000 raw units on a
position with cost basis 1 gives multiplier 3 = upper band; a successful
sell leaves the persisted quantity 0. -/
theorem sell_profit_banding_w :
    ((sellPhaseStep defaultSettings (some { raw_tx := true, out_amount := 3000000 })
        { route := some { raw_tx := true, out_amount := 5 }
          signOk := true
          submitHash := some "h"
          confirmed := true }
        exDB "tok" 1 10 6).1 "tok").map DBRow.holdings = some 0 :=
  (sell_profit_banding defaultSettings { raw_tx := true, out_amount := 3000000 }
    { route := some { raw_tx := true, out_amount := 5 }
      signOk := true
      submitHash := some "h"
      confirmed := true }
    exDB exRow (by simp [exDB, exRow]) (by norm_num [exRow]) (by norm_num [exRow])
    (by norm_num [defaultSettings]) (by norm_num)).1
    (by norm_num [profit_multiplier, current_price, sol_received, exRow,
      defaultSettings])
    rfl

/-- C8: a held position whose price-probe route reports `out_amount == 0`
is skipped for the iteration: no sell is attempted and the store is
unchanged (the loop body just moves to the next row, raising nothing). -/
theorem probe_zero_output_skips (s : Settings) (env : TradeEnv) (db : DB)
    (token_address : String) (buy_price holdings : ℚ) (decimals : ℕ)
    (data : RouteData) (hout : data.out_amount = 0) :
    sellPhaseStep s (some data) env db token_address buy_price holdings
      decimals = (db, none) := by
  simp [sellPhaseStep, sol_received, hout]

/-- Witness for C8 at a concrete position and probe. -/
theorem probe_zero_output_skips_w :
    sellPhaseStep defaultSettings (some { raw_tx := true, out_amount := 0 })
      { route := none, signOk := true, submitHash := none, confirmed := false }
      exDB "tok" 1 10 6 = (exDB, none) :=
  probe_zero_output_skips defaultSettings
    { route := none, signOk := true, submitHash := none, confirmed := false }
    exDB "tok" 1 10 6 { raw_tx := true, out_amount := 0 } rfl

/-- C2 fails on the sell path: at a concrete position (cost basis 1,
10 tokens held) with probe multiplier 3 (upper band) and a sell whose
swap-route fetch fails — `execute_sell` returns `False`, nothing was
confirmed on-chain — the loop body still sets the persisted holdings to 0.
The source ignores `execute_sell`'s result (lines 443-450). -/
theorem sell_failure_still_mutates :
    (sellPhaseStep defaultSettings (some { raw_tx := true, out_amount := 3000000 })
        { route := none, signOk := true, submitHash := none, confirmed := false }
        exDB "tok" 1 10 6).2 = some false ∧
    ((sellPhaseStep defaultSettings (some { raw_tx := true, out_amount := 3000000 })
        { route := none, signOk := true, submitHash := none, confirmed := false }
        exDB "tok" 1 10 6).1 "tok").map DBRow.holdings = some 0 ∧
    (exDB "tok").map DBRow.holdings = some 10 := by
  refine ⟨?_, ?_, ?_⟩
  · norm_num [sellPhaseStep, sol_received, current_price, profit_multiplier,
      defaultSettings, Trader.execute_sell]
  · norm_num [sellPhaseStep, sol_received, current_price, profit_multiplier,
      defaultSettings, dbSetHoldings, exDB, exRow]
  · simp [exDB, exRow]

/-- C7's refresh-on-failure part is false: with an existing credential
`"abc"`, a fresh credential available from the auth endpoint, and the
reputation request failing, the call leaves the credential at `"abc"`,
propagates the error, and performs no fetch. -/
theorem credential_stale_after_failed_request :
    validate_token_rugcheck "abc" "fresh" (fun _ => HttpResult.err)
      = ("abc", Except.error (), false) := rfl

/-- C7 amended: the credential is fetched exactly when none exists at the
time of a reputation check, and an existing credential is never replaced —
in particular a failed request leaves it unchanged (the failure propagates;
there is no refresh-on-failure), and it is never proactively expired. -/
theorem credential_lazy_never_refreshed (apiKey fetchResult : String)
    (request : String → HttpResult String) :
    (apiKey = "" →
      (validate_token_rugcheck apiKey fetchResult request).2.2 = true ∧
      (validate_token_rugcheck apiKey fetchResult request).1 = fetchResult) ∧
    (apiKey ≠ "" →
      (validate_token_rugcheck apiKey fetchResult request).2.2 = false ∧
      (validate_token_rugcheck apiKey fetchResult request).1 = apiKey) := by
  constructor
  · intro hk
    subst hk
    by_cases hf : fetchResult = ""
    · simp [validate_token_rugcheck, hf]
    · rcases hreq : request fetchResult <;>
        simp [validate_token_rugcheck, hf, hreq]
  · intro hk
    rcases hreq : request apiKey <;>
      simp [validate_token_rugcheck, hk, hreq]

/-- Witness for the amended C7: with no credential, a check fetches one and
keeps what the auth endpoint returned. -/
theorem credential_lazy_never_refreshed_w :
    (validate_token_rugcheck "" "t" (fun _ => HttpResult.ok "GOOD")).2.2 = true ∧
    (validate_token_rugcheck "" "t" (fun _ => HttpResult.ok "GOOD")).1 = "t" :=
  (credential_lazy_never_refreshed "" "t" (fun _ => HttpResult.ok "GOOD")).1 rfl

end TraderAgent
